import Mathlib

/-!
Verification development for the helpdesk-toolkit repository.

The repository is a Python CLI (`helpdesk.py`, with a logging variant
`helpdesk_logging.py`) that collects a system snapshot, derives suggestions
(`suggest_actions`), and in `--fix` mode runs a confirmation-gated action
(`interactive_fix`, `kill_process`, `clean_user_temp`,
`stop_onedrive_processes`).  This file is a shallow embedding of the parts of
that code relevant to the stated claims: pure Python functions become Lean
functions; the interactive / psutil-effectful parts become functions over an
explicit input stream and an explicit process-table / filesystem state.
Machine integers do not overflow in the modelled code paths, so `Nat`, `Int`
and `Rat` are used directly (Python ints are unbounded; the floats involved
are only compared, so `Rat` stands in for them).
-/

namespace Helpdesk

/-! ## Data model (shapes produced by `run_checks` in helpdesk.py) -/

/-- One entry of the `top_processes` list built by `top_processes` in
helpdesk.py: `{"pid": ..., "name": ..., "user": ..., "memory_rss": ...,
"cpu_percent": ...}`.  Each field comes from `info.get(...)` and may be
absent (`None`), hence `Option`. -/
structure Proc where
  pid : Option Int
  name : Option String
  user : Option String
  memory_rss : Option Nat
  cpu_percent : Option Rat
deriving DecidableEq, Repr

/-- One entry of the `disks` list built by `disk_info` in helpdesk.py.
An entry that failed to collect carries an error string instead of usage
numbers (`{"device": ..., "error": ...}`), so `percent` is optional. -/
structure DiskEntry where
  device : Option String
  mountpoint : Option String
  percent : Option Rat
  errorMsg : Option String
deriving DecidableEq, Repr

/-- Result of `ping_host` in helpdesk.py: either a dict with a `returncode`
or an error dict (modelled as `returncode = none`). -/
structure PingResult where
  returncode : Option Int
deriving DecidableEq, Repr

/-- The report dictionary assembled by `run_checks` in helpdesk.py,
restricted to the keys that `suggest_actions` and `main` consume.
`providerError` models the `{"error": ...}` dict returned when psutil is
missing; in that case every other key is absent, which `suggest_actions`
reads via `.get` with empty defaults. -/
structure Report where
  providerError : Option String
  memory_percent : Option Rat
  cpu_percent_overall : Option Rat
  disks : List DiskEntry
  top_processes : List Proc
  pings : List (String × PingResult)
deriving DecidableEq, Repr

/-- Action codes used in the suggestion tuples of `suggest_actions`
(`"kill_process"`, `"clean_temp"`, `"stop_onedrive"`). -/
inductive ActionCode where
  | kill_process
  | clean_temp
  | stop_onedrive
deriving DecidableEq, Repr

/-- A suggestion tuple `(action_code, readable_text, data)` as built by
`suggest_actions` in helpdesk.py; `data` is the optional PID payload. -/
structure Suggestion where
  code : ActionCode
  text : String
  data : Option Int
deriving DecidableEq, Repr

/-! ## Helpers for Python string formatting of optional values -/

/-- Python f-string rendering of a possibly-`None` string
(`f"{p.get('name')}"` prints `None` for a missing name). -/
def optStr : Option String → String
  | some s => s
  | none => "None"

/-- Python f-string rendering of a possibly-`None` integer. -/
def optIntStr : Option Int → String
  | some i => toString i
  | none => "None"

/-! ## Python string primitives

The Python methods `.strip()`, `.lower()`, `.startswith(...)` and the
`int(...)` constructor are modelled over the character list of the string so
that every definition evaluates by structural recursion. -/

/-- Characters stripped by Python `str.strip()` (ASCII whitespace; the
inputs in this development are ASCII). -/
def isSpaceChar (c : Char) : Bool :=
  c = ' ' ∨ c = '\t' ∨ c = '\n' ∨ c = '\r' ∨ c = '\x0b' ∨ c = '\x0c'

/-- Python `str.strip()`: remove leading and trailing whitespace. -/
def pyStrip (s : String) : String :=
  ⟨((s.data.dropWhile isSpaceChar).reverse.dropWhile isSpaceChar).reverse⟩

/-- Lower-case an ASCII character (Python `str.lower()` per character). -/
def lowerChar (c : Char) : Char :=
  if 65 ≤ c.toNat ∧ c.toNat ≤ 90 then Char.ofNat (c.toNat + 32) else c

/-- Python `str.lower()`. -/
def pyLower (s : String) : String := ⟨s.data.map lowerChar⟩

/-- Python `s.startswith(p)`. -/
def pyStartsWith (s p : String) : Bool := p.data.isPrefixOf s.data

/-- Decimal value of an ASCII digit character. -/
def digitVal? (c : Char) : Option Nat :=
  if 48 ≤ c.toNat ∧ c.toNat ≤ 57 then some (c.toNat - 48) else none

/-- Accumulate a decimal digit string. -/
def decDigitsAux : List Char → Nat → Option Nat
  | [], acc => some acc
  | c :: cs, acc =>
    match digitVal? c with
    | some d => decDigitsAux cs (acc * 10 + d)
    | none => none

/-- Parse a non-empty all-digit string. -/
def decDigits? (cs : List Char) : Option Nat :=
  match cs with
  | [] => none
  | _ => decDigitsAux cs 0

/-- Model of Python `int(s)`: strips surrounding whitespace, then an
optional sign followed by decimal digits; `none` models a raised
`ValueError`.  (Underscore digit grouping and non-ASCII digits are not
modelled; no claim depends on them.) -/
def parseIntPy (s : String) : Option Int :=
  match (pyStrip s).data with
  | '+' :: cs => (decDigits? cs).map Int.ofNat
  | '-' :: cs => (decDigits? cs).map (fun n => -(n : Int))
  | cs => (decDigits? cs).map Int.ofNat

/-! ## Confirmation gate (`confirm` in helpdesk.py)

```
def confirm(prompt):
    while True:
        ans = input(f"{prompt} [y/N]: ").strip().lower()
        if ans == "y":
            return True
        if ans == "n" or ans == "":
            return False
```

The loop consumes one line of input per iteration, so it is modelled as a
function over the remaining input stream.  `none` models the loop still
blocking for more input when the stream runs out. -/

/-- Normalisation applied to each answer: Python `.strip().lower()`. -/
def normalizeAnswer (s : String) : String := pyLower (pyStrip s)

/-- The `confirm` loop over a stream of input lines: returns `some true`
(proceed) on the first answer normalising to `"y"`, `some false` (abort) on
the first answer normalising to `"n"` or `""`, and keeps prompting
otherwise (`none` when the stream is exhausted while still prompting). -/
def confirm : List String → Option Bool
  | [] => none
  | a :: rest =>
    let ans := normalizeAnswer a
    if ans = "y" then some true
    else if ans = "n" ∨ ans = "" then some false
    else confirm rest

/-! ## Fix-mode menu (`interactive_fix` in helpdesk.py) -/

/-- The menu choice parse `int(input(...).strip() or "0")`: empty input
defaults to `0`; a failed `int(...)` (modelled `none`) is caught and makes
`interactive_fix` print "Invalid choice" and return. -/
def parseChoicePy (s : String) : Option Int :=
  let t := pyStrip s
  if t = "" then some 0 else parseIntPy t

/-- The clean-temp day prompt `input(...).strip() or "3"` followed by
`int(days_str)` with `days = 3` on `ValueError`. -/
def parseDays (s : String) : Int :=
  let t := pyStrip s
  let u := if t = "" then "3" else t
  (parseIntPy u).getD 3

/-- An invocation of one of the three action executors, recording which
executor `interactive_fix` reached and with what argument.  A PID can be
pre-bound suggestion data (`killData`) or a string solicited from the user
(`killUser`, carrying the `.strip()`ped input). -/
inductive Invocation where
  | killData (pid : Int)
  | killUser (pidStr : String)
  | cleanTemp (days : Int)
  | stopOnedrive
deriving DecidableEq, Repr

/-- Model of `interactive_fix(suggestions)` as a function of the stream of
stdin lines.  The result is the executor invocation it performs, or `none`
when it returns without invoking any executor (empty suggestion list,
invalid / `0` / out-of-range choice, abort at the confirmation step, or the
stream running out while the real code would still be blocking on input). -/
def interactive_fix (suggestions : List Suggestion) (inputs : List String) :
    Option Invocation :=
  if suggestions.isEmpty then none
  else
    match inputs with
    | [] => none
    | choiceStr :: rest =>
      match parseChoicePy choiceStr with
      | none => none
      | some choice =>
        if choice = 0 then none
        else if ¬ (1 ≤ choice ∧ choice ≤ (suggestions.length : Int)) then none
        else
          match suggestions[(choice - 1).toNat]? with
          | none => none
          | some s =>
            match s.code with
            | ActionCode.kill_process =>
              match s.data with
              | some pid =>
                match confirm rest with
                | some true => some (Invocation.killData pid)
                | _ => none
              | none =>
                match rest with
                | [] => none
                | pidStr :: rest2 =>
                  match confirm rest2 with
                  | some true => some (Invocation.killUser (pyStrip pidStr))
                  | _ => none
            | ActionCode.clean_temp =>
              match rest with
              | [] => none
              | dayStr :: rest2 =>
                match confirm rest2 with
                | some true => some (Invocation.cleanTemp (parseDays dayStr))
                | _ => none
            | ActionCode.stop_onedrive =>
              match confirm rest with
              | some true => some Invocation.stopOnedrive
              | _ => none

/-! ## Process sorting (`top_processes` in helpdesk.py)

```
procs_sorted = sorted(procs, key=lambda x: x.get('memory_rss') or 0, reverse=True)
return procs_sorted[:n]
```

Python `sorted` is a stable sort; with `reverse=True` it orders by the key
descending while equal-key elements keep their original order.  That is
exactly insertion sort with the relation "my key is at least yours". -/

/-- The sort key `x.get('memory_rss') or 0` (both `None` and `0` give 0). -/
def keyOf (p : Proc) : Nat := p.memory_rss.getD 0

/-- The relation along which `sorted(..., reverse=True)` orders: `a` may
come before `b` when `a`'s key is at least `b`'s. -/
def memGE (a b : Proc) : Prop := keyOf b ≤ keyOf a

instance : DecidableRel memGE := fun a b => Nat.decLe (keyOf b) (keyOf a)

instance : IsTotal Proc memGE := ⟨fun a b => Nat.le_total (keyOf b) (keyOf a)⟩

instance : IsTrans Proc memGE :=
  ⟨fun _ _ _ hab hbc => Nat.le_trans hbc hab⟩

/-- The stable descending sort performed by `top_processes`. -/
def sortProcsByMem (procs : List Proc) : List Proc :=
  List.insertionSort memGE procs

/-- Model of `top_processes(n)` in helpdesk.py, as a function of the raw
process list yielded by the provider iteration: sort by memory (largest
first, stable) and keep the first `n`. -/
def top_processes (n : Nat) (procs : List Proc) : List Proc :=
  (sortProcsByMem procs).take n

/-! ## Rule engine (`suggest_actions` in helpdesk.py)

Only the returned suggestion list is modelled; the `print` calls are
output-only.  The function reads the report with `.get(...)` defaults, so a
provider-error report (all keys absent) flows through every branch without
failing. -/

/-- The suggestion tuple built for each of the top 3 memory consumers:
`("kill_process", f"Terminate process {name} (pid {pid})", pid)`. -/
def mkKillSuggestion (p : Proc) : Suggestion :=
  { code := ActionCode.kill_process
    text := "Terminate process " ++ optStr p.name ++ " (pid " ++
      optIntStr p.pid ++ ")"
    data := p.pid }

/-- Model of `suggest_actions(report)`: the returned list of suggestion
tuples, in source order (memory kills, then clean-temp, then
stop-OneDrive; the CPU and ping checks are advisory prints only). -/
def suggest_actions (r : Report) : List Suggestion :=
  let memSugs :=
    match r.memory_percent with
    | some pct =>
      if 80 < pct then (r.top_processes.take 3).map mkKillSuggestion else []
    | none => []
  let diskSugs :=
    if r.disks.any (fun d =>
        match d.percent with
        | some pc => decide (90 < pc)
        | none => false) then
      [{ code := ActionCode.clean_temp
         text := "Clean user temporary files older than X days"
         data := none }]
    else []
  let oneSugs :=
    if r.top_processes.any (fun p =>
        pyStartsWith (pyLower (p.name.getD "")) "onedrive") then
      [{ code := ActionCode.stop_onedrive
         text := "Stop OneDrive process (pause syncing)"
         data := none }]
    else []
  memSugs ++ diskSugs ++ oneSugs

/-- The kill-suggestion payloads of a suggestion list: the `data` fields of
its `"kill_process"` entries, in order. -/
def killPayloads (l : List Suggestion) : List (Option Int) :=
  (l.filter (fun s => decide (s.code = ActionCode.kill_process))).map
    Suggestion.data

/-! ## Checks driver (`run_checks` and `main` in helpdesk.py) -/

/-- The raw data the Snapshot Provider (psutil) yields for one run, before
`run_checks` assembles the report: the fields `suggest_actions` later
consumes plus the un-truncated process iteration result. -/
structure ProviderData where
  memory_percent : Option Rat
  cpu_percent_overall : Option Rat
  disks : List DiskEntry
  procs : List Proc
  pings : List (String × PingResult)
deriving DecidableEq, Repr

/-- The `{"error": "psutil not installed. ..."}` dict returned by
`run_checks` when psutil is missing: every report key that
`suggest_actions` and `pretty_print_summary` probe is absent. -/
def errorReport : Report :=
  { providerError :=
      some "psutil not installed. run `pip install -r requirements.txt`"
    memory_percent := none
    cpu_percent_overall := none
    disks := []
    top_processes := []
    pings := [] }

/-- Model of `run_checks(args)`: when psutil is unavailable it returns the
error dict, otherwise it assembles the report from the provider data,
truncating the process list via `top_processes(n=args.top_processes)`. -/
def run_checks (psutilAvailable : Bool) (topN : Nat) (data : ProviderData) :
    Report :=
  if psutilAvailable then
    { providerError := none
      memory_percent := data.memory_percent
      cpu_percent_overall := data.cpu_percent_overall
      disks := data.disks
      top_processes := top_processes topN data.procs
      pings := data.pings }
  else errorReport

/-- What one run of `main()` produces.  `exitCode` is the process exit
status: `main` contains no `sys.exit` call and every checked code path
returns normally (the psutil-missing report flows through
`pretty_print_summary`, `suggest_actions` and `save_report` via `.get`
defaults without raising), so falling off the end of `main` exits the
Python process with status 0 on every modelled path. -/
structure MainResult where
  exitCode : Nat
  report : Report
  suggestions : List Suggestion
  invocation : Option Invocation
deriving DecidableEq, Repr

/-- Model of `main()`: run the checks, derive suggestions, and when
`--fix` was passed run the interactive fix menu over the input stream. -/
def main (psutilAvailable : Bool) (topN : Nat) (data : ProviderData)
    (fixMode : Bool) (inputs : List String) : MainResult :=
  let report := run_checks psutilAvailable topN data
  let suggestions := suggest_actions report
  { exitCode := 0
    report := report
    suggestions := suggestions
    invocation := if fixMode then interactive_fix suggestions inputs else none }

/-! ## Logging variant top-3 (`collect_basic_report` in helpdesk_logging.py)

```
procs.append((mem_rss, info.get('pid'), info.get('name')))
procs.sort(reverse=True)
report["top_processes"] = [... for mem,pid,name in procs[:3]]
```

Unlike `top_processes` in helpdesk.py, this sorts the full tuple, so
Python's tuple comparison breaks memory ties by pid and then by name. -/

/-- A `(mem_rss, pid, name)` tuple of the logging variant (`mem_rss` is
`mem.rss if mem else 0`, so it is always a number here). -/
structure LogProc where
  mem : Nat
  pid : Int
  name : String
deriving DecidableEq, Repr

/-- Python tuple `<` on `(mem, pid, name)`: lexicographic. -/
def tupleLt (a b : LogProc) : Prop :=
  a.mem < b.mem ∨
    (a.mem = b.mem ∧ (a.pid < b.pid ∨ (a.pid = b.pid ∧ a.name < b.name)))

instance : DecidableRel tupleLt := fun a b => by
  unfold tupleLt; infer_instance

/-- The ordering of `list.sort(reverse=True)`: `a` may come before `b`
when `a` is at least `b` in the tuple order. -/
def logDescRel (a b : LogProc) : Prop := tupleLt b a ∨ b = a

instance : DecidableRel logDescRel := fun a b => by
  unfold logDescRel; infer_instance

/-- The `procs.sort(reverse=True)` step of `collect_basic_report`. -/
def logSortDesc (l : List LogProc) : List LogProc :=
  List.insertionSort logDescRel l

/-- The top-3 selection `procs[:3]` of `collect_basic_report` after the
descending tuple sort. -/
def logTop3 (l : List LogProc) : List LogProc := (logSortDesc l).take 3

/-! ## Action executor: `kill_process` in helpdesk.py

The psutil interactions are modelled by an explicit process table: for each
PID either `none` (no such process — `psutil.Process` raises
`NoSuchProcess`) or a behaviour record saying how the process reacts to the
terminate/wait/kill sequence. -/

/-- Behaviour of one live process under `kill_process`:
`terminateDenied` — `p.terminate()` raises `AccessDenied`;
`exitsWithinGrace` — the process exits within the 5-second graceful wait;
`killDenied` — the escalated `p.kill()` raises `AccessDenied`;
`exitsAfterForce` — the process exits within the 3-second post-kill wait. -/
structure ProcBehavior where
  name : String
  terminateDenied : Bool
  exitsWithinGrace : Bool
  killDenied : Bool
  exitsAfterForce : Bool
deriving DecidableEq, Repr

/-- The process table: what `psutil.Process(pid)` finds. -/
def PsEnv : Type := Int → Option ProcBehavior

/-- The `pid` argument of `kill_process`: either the integer payload of a
suggestion or a string the user typed at the PID prompt (already
`.strip()`ped by `interactive_fix`). -/
inductive PidArg where
  | dataPid (pid : Int)
  | userPid (s : String)
deriving DecidableEq, Repr

/-- How the `pid` argument renders inside the message f-strings. -/
def pidArgStr : PidArg → String
  | PidArg.dataPid i => toString i
  | PidArg.userPid s => s

/-- The `int(pid)` call at the top of `kill_process`; `none` models the
`ValueError` its `except (psutil.NoSuchProcess, ValueError)` clause
catches. -/
def pidArgToInt : PidArg → Option Int
  | PidArg.dataPid i => some i
  | PidArg.userPid s => parseIntPy s

/-- Number of time-units `p.wait(timeout=5)` allows after the graceful
terminate request. -/
def gracefulWaitSeconds : Nat := 5

/-- Number of time-units `p.wait(timeout=3)` allows after the escalated
kill. -/
def forcedWaitSeconds : Nat := 3

/-- The `except psutil.AccessDenied` message of `kill_process`. -/
def accessDeniedMsg : String :=
  "Access denied. Try running PowerShell as Administrator."

/-- The graceful-tier success message of `kill_process`. -/
def terminatedMsg (name : String) (pa : PidArg) : String :=
  "Terminated " ++ name ++ " (pid " ++ pidArgStr pa ++ ")"

/-- The forced-tier success message of `kill_process`. -/
def killedMsg (name : String) (pa : PidArg) : String :=
  "Killed " ++ name ++ " (pid " ++ pidArgStr pa ++ ")"

/-- The `except (psutil.NoSuchProcess, ValueError)` message
`f"Process {pid} not found: {e}"`; `detail` models the Python exception
text `str(e)`. -/
def notFoundMsg (pa : PidArg) (detail : String) : String :=
  "Process " ++ pidArgStr pa ++ " not found: " ++ detail

/-- Modelled `str(e)` for `psutil.NoSuchProcess` (text supplied by the
psutil runtime, not by this repository). -/
def noSuchProcessDetail (pid : Int) : String :=
  "process no longer exists (pid=" ++ toString pid ++ ")"

/-- Modelled `str(e)` for the `ValueError` of `int(pid)` (text supplied by
the Python runtime, abbreviated without the quoted literal). -/
def valueErrorDetail (s : String) : String :=
  "invalid literal for int() with base 10: " ++ s

/-- Modelled `str(e)` for a `psutil.TimeoutExpired` escaping the second
`wait`, which the final `except Exception` clause turns into a failure
outcome. -/
def timeoutExpiredDetail (pid : Int) : String :=
  "timeout after 3 seconds (pid=" ++ toString pid ++ ")"

/-- Model of `kill_process(pid)` in helpdesk.py, returning the `(ok, msg)`
pair of the source.  The branch order follows the source: `int(pid)` and
process lookup (not-found failures), then `terminate()` with the graceful
wait, then on timeout `kill()` with the forced wait; `AccessDenied` from
either signal is caught by the same handler and is never escalated or
retried. -/
def kill_process (env : PsEnv) (pa : PidArg) : Bool × String :=
  match pidArgToInt pa with
  | none => (false, notFoundMsg pa (valueErrorDetail (pidArgStr pa)))
  | some pid =>
    match env pid with
    | none => (false, notFoundMsg pa (noSuchProcessDetail pid))
    | some b =>
      if b.terminateDenied then (false, accessDeniedMsg)
      else if b.exitsWithinGrace then (true, terminatedMsg b.name pa)
      else if b.killDenied then (false, accessDeniedMsg)
      else if b.exitsAfterForce then (true, killedMsg b.name pa)
      else (false, timeoutExpiredDetail pid)

/-! ## Action executor: `clean_user_temp` in helpdesk.py

The walked temp directory is modelled as a list of files with modification
times and sizes; `removable` models whether `os.remove` succeeds (its
`except Exception: pass` silently skips permission errors and busy
files). -/

/-- One file under the user temp directory. -/
structure TempFile where
  path : String
  mtime : Rat
  size : Nat
  removable : Bool
deriving DecidableEq, Repr

/-- The temp-directory state at the moment of the call: the files the walk
visits and the current `time.time()`. -/
structure TempState where
  files : List TempFile
  now : Rat
deriving DecidableEq, Repr

/-- The cutoff `now_ts - (older_than_days * 86400)` of `clean_user_temp`. -/
def cutoffOf (now : Rat) (days : Int) : Rat := now - (days : Rat) * 86400

/-- The files `clean_user_temp` actually deletes: modification time
strictly below the cutoff and the `os.remove` call succeeding. -/
def deletedList (days : Int) (st : TempState) : List TempFile :=
  st.files.filter (fun f =>
    decide (f.mtime < cutoffOf st.now days) && f.removable)

/-- Model of `clean_user_temp(older_than_days)`: returns the
`(deleted_files, deleted_bytes)` counters of the source together with the
resulting directory state (explicit state passing for the filesystem
mutation). -/
def clean_user_temp (days : Int) (st : TempState) :
    Nat × Nat × TempState :=
  let del := deletedList days st
  (del.length,
   (del.map TempFile.size).sum,
   { files :=
       st.files.filter (fun f =>
         !(decide (f.mtime < cutoffOf st.now days) && f.removable))
     now := st.now })

/-! ## Properties of the confirmation gate -/

/-- An input line that makes `confirm` proceed. -/
def IsYesTok (s : String) : Prop := normalizeAnswer s = "y"

/-- An input line that makes `confirm` abort. -/
def IsNoTok (s : String) : Prop :=
  normalizeAnswer s = "n" ∨ normalizeAnswer s = ""

/-- An input stream on which the `confirm` loop eventually proceeds: some
line normalises to `"y"` and every earlier line is indecisive (neither a
yes- nor a no-token), so the loop re-prompts past it. -/
def ConfirmsYes (l : List String) : Prop :=
  ∃ pre s post, l = pre ++ s :: post ∧ IsYesTok s ∧
    ∀ t ∈ pre, ¬ IsYesTok t ∧ ¬ IsNoTok t

instance : DecidablePred IsYesTok := fun s => by
  unfold IsYesTok; infer_instance

instance : DecidablePred IsNoTok := fun s => by
  unfold IsNoTok; infer_instance

theorem confirm_eq_true_iff (l : List String) :
    confirm l = some true ↔ ConfirmsYes l := by
  induction l with
  | nil =>
    constructor
    · intro h; exact absurd h (by simp [confirm])
    · rintro ⟨pre, s, post, heq, -, -⟩
      exact absurd heq.symm (by simp)
  | cons a l ih =>
    by_cases hy : normalizeAnswer a = "y"
    · constructor
      · intro _
        exact ⟨[], a, l, rfl, hy, by simp⟩
      · intro _
        simp [confirm, hy]
    · by_cases hn : normalizeAnswer a = "n" ∨ normalizeAnswer a = ""
      · constructor
        · intro h
          have : confirm (a :: l) = some false := by simp [confirm, hy, hn]
          rw [this] at h
          exact absurd h (by simp)
        · rintro ⟨pre, s, post, heq, hys, hpre⟩
          cases pre with
          | nil =>
            simp only [List.nil_append, List.cons.injEq] at heq
            exact absurd (heq.1 ▸ hys) hy
          | cons p pre =>
            simp only [List.cons_append, List.cons.injEq] at heq
            exact absurd hn (heq.1 ▸ (hpre p (by simp)).2)
      · have hstep : confirm (a :: l) = confirm l := by
          simp [confirm, hy, hn]
        rw [hstep, ih]
        constructor
        · rintro ⟨pre, s, post, heq, hys, hpre⟩
          exact ⟨a :: pre, s, post, by rw [heq, List.cons_append], hys, by
            intro t ht
            rcases List.mem_cons.mp ht with rfl | ht
            · exact ⟨hy, hn⟩
            · exact hpre t ht⟩
        · rintro ⟨pre, s, post, heq, hys, hpre⟩
          cases pre with
          | nil =>
            simp only [List.nil_append, List.cons.injEq] at heq
            exact absurd (heq.1 ▸ hys) hy
          | cons p pre =>
            simp only [List.cons_append, List.cons.injEq] at heq
            exact ⟨pre, s, post, heq.2, hys,
              fun t ht => hpre t (by simp [ht])⟩

/-- Reduction of the fix-mode menu on a single pre-bound kill suggestion
chosen with input `"1"`: everything up to the action-specific confirmation
step is concrete, so the run hinges on `confirm` over the remaining
stream. -/
theorem interactive_fix_kill_eq (pid : Int) (txt : String)
    (rest : List String) :
    interactive_fix [⟨ActionCode.kill_process, txt, some pid⟩]
        ("1" :: rest) =
      (match confirm rest with
       | some true => some (Invocation.killData pid)
       | _ => none) := rfl

/-- Claim C1 as stated is false on the code: after choosing the kill
suggestion, the confirmation input `"Y "` — not the exact affirmative
marker `"y"` — still reaches the Action Executor, because `confirm`
normalises each answer with `.strip().lower()`; and the input `"maybe"`
does not abort but re-prompts (the `while True` loop keeps asking). -/
theorem C1_counterexample :
    interactive_fix [⟨ActionCode.kill_process,
        "Terminate process chrome (pid 42)", some 42⟩] ["1", "Y "] =
      some (Invocation.killData 42) ∧
    "Y " ≠ "y" ∧
    confirm ["maybe"] ≠ some false := by decide

/-- Claim C1 amended: in fix mode, after the kill suggestion is chosen the
Action Executor is reached exactly when the confirmation loop eventually
sees an input whose `.strip().lower()` normalisation is `"y"`, with every
earlier input indecisive (not normalising to `"y"`, `"n"` or `""`);
inputs normalising to `"n"` or `""` abort, and other inputs are
re-prompted rather than aborting. -/
theorem C1_confirm_gate (pid : Int) (txt : String) (rest : List String) :
    interactive_fix [⟨ActionCode.kill_process, txt, some pid⟩]
        ("1" :: rest) = some (Invocation.killData pid) ↔
      ConfirmsYes rest := by
  rw [interactive_fix_kill_eq, ← confirm_eq_true_iff]
  rcases h : confirm rest with - | b
  · simp
  · cases b
    · simp
    · simp

/-- Concrete instance of the amended claim C1: the stream
`["huh", "Y "]` re-prompts once and then proceeds. -/
theorem C1_confirm_gate_witness :
    interactive_fix [⟨ActionCode.kill_process, "t", some 7⟩]
        ["1", "huh", "Y "] = some (Invocation.killData 7) :=
  (C1_confirm_gate 7 "t" ["huh", "Y "]).mpr
    ⟨["huh"], "Y ", [], rfl, by decide, by decide⟩

/-- Claim C2: a menu input that parses to `0`, parses to a number outside
`1..len(suggestions)`, or fails to parse makes `interactive_fix` return
with no executor invocation, regardless of any further input (so the
selection prompt is never retried). -/
theorem C2_invalid_choice_no_executor (suggestions : List Suggestion)
    (choiceStr : String) (rest : List String)
    (h : parseChoicePy choiceStr = none ∨ parseChoicePy choiceStr = some 0 ∨
      ∃ c, parseChoicePy choiceStr = some c ∧
        ¬ (1 ≤ c ∧ c ≤ (suggestions.length : Int))) :
    interactive_fix suggestions (choiceStr :: rest) = none := by
  unfold interactive_fix
  cases hs : suggestions.isEmpty
  · simp only [Bool.false_eq_true, if_false]
    rcases h with h | h | ⟨c, hc, hrange⟩
    · rw [h]
    · rw [h]; simp
    · rw [hc]
      by_cases hc0 : c = 0
      · simp [hc0]
      · simp [hc0, hrange]
  · simp

/-- Witness for claim C2 on concrete runs: choice `"0"`, out-of-range
choice `"7"`, and non-numeric choice `"abc"` all return without invoking
an executor even though the rest of the stream would select and confirm an
action. -/
theorem C2_witness :
    interactive_fix [⟨ActionCode.kill_process, "t", some 42⟩]
        ("0" :: ["1", "y"]) = none ∧
    interactive_fix [⟨ActionCode.kill_process, "t", some 42⟩]
        ("7" :: ["y"]) = none ∧
    interactive_fix [⟨ActionCode.kill_process, "t", some 42⟩]
        ("abc" :: ["1", "y"]) = none :=
  ⟨C2_invalid_choice_no_executor _ _ _ (Or.inr (Or.inl (by decide))),
   C2_invalid_choice_no_executor _ _ _
     (Or.inr (Or.inr ⟨7, by decide, by decide⟩)),
   C2_invalid_choice_no_executor _ _ _ (Or.inl (by decide))⟩

/-! ## Exit status (claim C3) -/

/-- Claim C3 as stated is false on the code: `main` in helpdesk.py contains
no `sys.exit` and no uncaught raise on the psutil-missing path — the error
dict from `run_checks` flows through summary printing, suggestion
derivation and report saving — so the process still exits with status 0
when the Snapshot Provider is entirely unavailable. -/
theorem C3_counterexample :
    (main false 5 ⟨none, none, [], [], []⟩ false []).exitCode = 0 ∧
    (main false 5 ⟨none, none, [], [], []⟩ false []).report.providerError ≠
      none := by decide

/-- Claim C3 amended: the exit status is 0 on every completion, including
runs where the Snapshot Provider (psutil) is entirely unavailable; in that
case the report is the bare error marker and no findings or suggestions
are produced. -/
theorem C3_exit_status (avail : Bool) (topN : Nat) (data : ProviderData)
    (fixMode : Bool) (inputs : List String) :
    (main avail topN data fixMode inputs).exitCode = 0 ∧
    (avail = false →
      (main avail topN data fixMode inputs).report = errorReport ∧
      (main avail topN data fixMode inputs).suggestions = []) := by
  refine ⟨rfl, fun h => ?_⟩
  subst h
  exact ⟨rfl, rfl⟩

/-- Witness for the amended claim C3 at a concrete provider-unavailable
run. -/
theorem C3_exit_status_witness :
    (main false 5 ⟨none, none, [], [], []⟩ false []).exitCode = 0 ∧
    (main false 5 ⟨none, none, [], [], []⟩ false []).suggestions = [] :=
  ⟨(C3_exit_status false 5 ⟨none, none, [], [], []⟩ false []).1,
   ((C3_exit_status false 5 ⟨none, none, [], [], []⟩ false []).2 rfl).2⟩

/-! ## Terminate escalation ladder (claims C4 and C5) -/

/-- Claim C4: for a PID that resolves to a live process, `kill_process`
first sends the graceful terminate and waits up to 5 time-units
(`gracefulWaitSeconds`); only on timeout does it escalate to `kill()` with
up to 3 more time-units (`forcedWaitSeconds`); the success message records
the tier ("Terminated" vs "Killed"); an `AccessDenied` from the terminate
signal yields the distinct access-denied outcome with elevation guidance,
unconditionally on the remaining behaviour — never escalated, never
retried. -/
theorem C4_kill_escalation (env : PsEnv) (pa : PidArg) (pid : Int)
    (b : ProcBehavior) (hpid : pidArgToInt pa = some pid)
    (henv : env pid = some b) :
    gracefulWaitSeconds = 5 ∧ forcedWaitSeconds = 3 ∧
    (b.terminateDenied = true →
      kill_process env pa = (false, accessDeniedMsg)) ∧
    (b.terminateDenied = false → b.exitsWithinGrace = true →
      kill_process env pa = (true, terminatedMsg b.name pa)) ∧
    (b.terminateDenied = false → b.exitsWithinGrace = false →
      b.killDenied = false → b.exitsAfterForce = true →
      kill_process env pa = (true, killedMsg b.name pa)) ∧
    accessDeniedMsg =
      "Access denied. Try running PowerShell as Administrator." := by
  unfold kill_process
  simp only [hpid, henv]
  refine ⟨rfl, rfl, ?_, ?_, ?_, rfl⟩
  · intro h1; simp [h1]
  · intro h1 h2; simp [h1, h2]
  · intro h1 h2 h3 h4; simp [h1, h2, h3, h4]

/-- Witness for claim C4 at a concrete process table: pid 42 exits within
the graceful wait, pid 43 needs the forced kill, pid 44 is
permission-protected. -/
theorem C4_kill_escalation_witness :
    kill_process
        (fun p =>
          if p = 42 then some ⟨"chrome", false, true, false, true⟩
          else if p = 43 then some ⟨"stuck", false, false, false, true⟩
          else if p = 44 then some ⟨"system", true, false, false, false⟩
          else none)
        (PidArg.dataPid 42) =
      (true, terminatedMsg "chrome" (PidArg.dataPid 42)) ∧
    kill_process
        (fun p =>
          if p = 42 then some ⟨"chrome", false, true, false, true⟩
          else if p = 43 then some ⟨"stuck", false, false, false, true⟩
          else if p = 44 then some ⟨"system", true, false, false, false⟩
          else none)
        (PidArg.dataPid 43) =
      (true, killedMsg "stuck" (PidArg.dataPid 43)) ∧
    kill_process
        (fun p =>
          if p = 42 then some ⟨"chrome", false, true, false, true⟩
          else if p = 43 then some ⟨"stuck", false, false, false, true⟩
          else if p = 44 then some ⟨"system", true, false, false, false⟩
          else none)
        (PidArg.dataPid 44) =
      (false, accessDeniedMsg) :=
  ⟨((C4_kill_escalation _ (PidArg.dataPid 42) 42
      ⟨"chrome", false, true, false, true⟩ rfl rfl).2.2.2.1 rfl rfl),
   ((C4_kill_escalation _ (PidArg.dataPid 43) 43
      ⟨"stuck", false, false, false, true⟩ rfl rfl).2.2.2.2.1 rfl rfl rfl rfl),
   ((C4_kill_escalation _ (PidArg.dataPid 44) 44
      ⟨"system", true, false, false, false⟩ rfl rfl).2.2.1 rfl)⟩

/-- Claim C5: a PID that is not in the process table — including a PID
string that is not a valid integer — makes `kill_process` return the
not-found failure outcome (`success = false` with the
`"Process ... not found: ..."` message) rather than raising; the function
is a pure map of the process table and the argument, so re-invoking it
against an already-terminated PID (absent from the table) yields the same
not-found outcome. -/
theorem C5_not_found (env : PsEnv) (pa : PidArg)
    (h : pidArgToInt pa = none ∨
      ∃ pid, pidArgToInt pa = some pid ∧ env pid = none) :
    (kill_process env pa).1 = false ∧
    ∃ detail, (kill_process env pa).2 = notFoundMsg pa detail := by
  rcases h with h | ⟨pid, hp, he⟩
  · unfold kill_process
    simp only [h]
    exact ⟨trivial, _, rfl⟩
  · unfold kill_process
    simp only [hp, he]
    exact ⟨trivial, _, rfl⟩

/-- Witness for claim C5 on an empty process table: a non-integer PID
string and an absent integer PID both give the not-found failure. -/
theorem C5_not_found_witness :
    ((kill_process (fun _ => none) (PidArg.userPid "abc")).1 = false ∧
      ∃ detail, (kill_process (fun _ => none) (PidArg.userPid "abc")).2 =
        notFoundMsg (PidArg.userPid "abc") detail) ∧
    ((kill_process (fun _ => none) (PidArg.dataPid 99)).1 = false ∧
      ∃ detail, (kill_process (fun _ => none) (PidArg.dataPid 99)).2 =
        notFoundMsg (PidArg.dataPid 99) detail) :=
  ⟨C5_not_found _ _ (Or.inl (by decide)),
   C5_not_found _ _ (Or.inr ⟨99, rfl, rfl⟩)⟩

/-! ## Rule-engine totality and graceful degradation (claim C7) -/

/-- Kill suggestions never match a different action code. -/
theorem filter_code_map_kill (c : ActionCode)
    (hc : c ≠ ActionCode.kill_process) (l : List Proc) :
    (l.map mkKillSuggestion).filter (fun s => decide (s.code = c)) = [] := by
  have hd : (decide (ActionCode.kill_process = c)) = false := by
    simp [eq_comm, hc]
  induction l with
  | nil => rfl
  | cons a l ih =>
    simp only [List.map_cons, List.filter_cons, mkKillSuggestion, hd,
      Bool.false_eq_true, if_false]
    exact ih

/-- Claim C7: `suggest_actions` is total by construction (a Lean function
over the report value, mirroring the fact that every report access in the
source goes through `.get` with a default); on the provider-error report it
returns zero suggestions; an absent or non-numeric `memory.percent`
produces no kill suggestion; and a disk list whose entries all lack a
numeric `percent` (error-marked entries) produces no clean-temp
suggestion. -/
theorem C7_rule_engine_total :
    suggest_actions errorReport = [] ∧
    (∀ r : Report, r.memory_percent = none →
      (suggest_actions r).filter
        (fun s => decide (s.code = ActionCode.kill_process)) = []) ∧
    (∀ r : Report, (∀ d ∈ r.disks, d.percent = none) →
      (suggest_actions r).filter
        (fun s => decide (s.code = ActionCode.clean_temp)) = []) := by
  refine ⟨rfl, ?_, ?_⟩
  · intro r h
    simp only [suggest_actions, h]
    split
    · split <;> rfl
    · split <;> rfl
  · intro r h
    have hany : (r.disks.any (fun d =>
        match d.percent with
        | some pc => decide (90 < pc)
        | none => false)) = false := by
      rw [List.any_eq_false]
      intro d hd
      rw [h d hd]
      simp
    simp only [suggest_actions, hany, Bool.false_eq_true, if_false,
      List.append_nil]
    have hone : (List.filter
        (fun s : Suggestion => decide (s.code = ActionCode.clean_temp))
        (if (r.top_processes.any fun p =>
            pyStartsWith (pyLower (p.name.getD "")) "onedrive") = true then
          ([⟨ActionCode.stop_onedrive, "Stop OneDrive process (pause syncing)",
            none⟩] : List Suggestion)
        else [])) = [] := by
      split <;> rfl
    cases hm : r.memory_percent with
    | none =>
      simp only [hm, List.nil_append]
      exact hone
    | some pct =>
      by_cases hp : 80 < pct
      · simp only [hm, if_pos hp]
        rw [List.filter_append,
          filter_code_map_kill ActionCode.clean_temp (by decide),
          List.nil_append]
        exact hone
      · simp only [hm, if_neg hp, List.nil_append]
        exact hone

/-- Witness for claim C7 at concrete reports: the provider-error report,
and a report whose memory key is absent and whose only disk entry is
error-marked. -/
theorem C7_witness :
    suggest_actions errorReport = [] ∧
    (suggest_actions
        ⟨none, none, none, [⟨some "sda1", some "/", none, some "busy"⟩],
          [], []⟩).filter
      (fun s => decide (s.code = ActionCode.kill_process)) = [] ∧
    (suggest_actions
        ⟨none, none, none, [⟨some "sda1", some "/", none, some "busy"⟩],
          [], []⟩).filter
      (fun s => decide (s.code = ActionCode.clean_temp)) = [] :=
  ⟨C7_rule_engine_total.1,
   C7_rule_engine_total.2.1 _ rfl,
   C7_rule_engine_total.2.2 _ (by decide)⟩

/-! ## Temp cleaning round-trip and negative-day cutoff (claims C9, C10) -/

/-- A negative day count puts the cutoff strictly in the future. -/
theorem now_lt_cutoff_of_neg (now : Rat) (days : Int) (h : days < 0) :
    now < cutoffOf now days := by
  unfold cutoffOf
  have hq : (days : Rat) < 0 := by exact_mod_cast h
  have h86 : (days : Rat) * 86400 < 0 :=
    mul_neg_of_neg_of_pos hq (by norm_num)
  linarith

/-- Claim C9 as stated is false on the code: `clean_user_temp` wraps each
deletion in `except Exception: pass`, silently skipping permission-denied
and busy files, so a directory whose single file is strictly older than
now but not removable reports a deleted count of 0, not N = 1. -/
theorem C9_counterexample :
    ((⟨"locked.tmp", 10, 5, false⟩ : TempFile).mtime < (30 : Rat)) ∧
    (clean_user_temp 0 ⟨[⟨"locked.tmp", 10, 5, false⟩], 30⟩).1 = 0 ∧
    (clean_user_temp 0 ⟨[⟨"locked.tmp", 10, 5, false⟩], 30⟩).1 ≠
      ([⟨"locked.tmp", 10, 5, false⟩] : List TempFile).length := by
  refine ⟨by norm_num, ?_, ?_⟩ <;>
    simp [clean_user_temp, deletedList, List.filter_cons]

/-- Claim C9 amended: restricted to files whose deletion succeeds (the
per-file `except ... pass` skips the rest), with `days = 0` the cutoff is
`now` itself, so a directory whose N files are all strictly older than now
and all deletable is emptied with a reported count of N, and an
immediately following second invocation deletes nothing and reports 0. -/
theorem C9_clean_roundtrip (st : TempState)
    (h : ∀ f ∈ st.files, f.mtime < st.now ∧ f.removable = true) :
    (clean_user_temp 0 st).1 = st.files.length ∧
    ((clean_user_temp 0 st).2.2).files = [] ∧
    (clean_user_temp 0 ((clean_user_temp 0 st).2.2)).1 = 0 := by
  have hcut : cutoffOf st.now 0 = st.now := by
    unfold cutoffOf; push_cast; ring
  have hall : deletedList 0 st = st.files := by
    unfold deletedList
    rw [List.filter_eq_self]
    intro f hf
    rcases h f hf with ⟨hm, hr⟩
    simp [hcut, hm, hr]
  have hrem : ((clean_user_temp 0 st).2.2).files = [] := by
    show st.files.filter _ = []
    rw [List.filter_eq_nil_iff]
    intro f hf
    rcases h f hf with ⟨hm, hr⟩
    simp [hcut, hm, hr]
  refine ⟨?_, hrem, ?_⟩
  · show (deletedList 0 st).length = _
    rw [hall]
  · show (deletedList 0 _).length = 0
    unfold deletedList
    rw [hrem]
    rfl

/-- Witness for claim C9: two old files, both cleaned on the first pass,
none on the second. -/
theorem C9_clean_roundtrip_witness :
    (clean_user_temp 0 ⟨[⟨"a.tmp", 10, 5, true⟩, ⟨"b.tmp", 20, 7, true⟩],
        30⟩).1 = 2 ∧
    (clean_user_temp 0
        ((clean_user_temp 0
          ⟨[⟨"a.tmp", 10, 5, true⟩, ⟨"b.tmp", 20, 7, true⟩], 30⟩).2.2)).1 =
      0 :=
  ⟨(C9_clean_roundtrip _ (by decide)).1,
   (C9_clean_roundtrip _ (by decide)).2.2⟩

/-- Claim C10: the clean-temp prompt accepts any integer day count with no
lower bound (`int(days_str)`, default 3 on failure), the executor computes
the cutoff as `now - days*86400`, and for a negative day count the cutoff
lies in the future, so every file modified at or before the moment of the
call is eligible for deletion. -/
theorem C10_negative_days :
    parseDays "-5" = -5 ∧
    interactive_fix
        [⟨ActionCode.clean_temp,
          "Clean user temporary files older than X days", none⟩]
        ["1", "-5", "y"] = some (Invocation.cleanTemp (-5)) ∧
    (∀ (now : Rat) (days : Int), days < 0 → now < cutoffOf now days) ∧
    (∀ (days : Int) (st : TempState) (f : TempFile), days < 0 →
      f ∈ st.files → f.removable = true → f.mtime ≤ st.now →
      f ∈ deletedList days st) := by
  refine ⟨by decide, by decide, fun now days h => now_lt_cutoff_of_neg now days h, ?_⟩
  intro days st f hneg hf hr hm
  refine List.mem_filter.mpr ⟨hf, ?_⟩
  have hcut := now_lt_cutoff_of_neg st.now days hneg
  simp [hr, lt_of_le_of_lt hm hcut]

/-- Witness for claim C10: with `days = -1` a file whose modification time
equals the current time is still deleted. -/
theorem C10_negative_days_witness :
    (100 : Rat) < cutoffOf 100 (-1) ∧
    (⟨"fresh.tmp", 100, 1, true⟩ : TempFile) ∈
      deletedList (-1) ⟨[⟨"fresh.tmp", 100, 1, true⟩], 100⟩ :=
  ⟨C10_negative_days.2.2.1 100 (-1) (by decide),
   C10_negative_days.2.2.2 (-1) ⟨[⟨"fresh.tmp", 100, 1, true⟩], 100⟩
     ⟨"fresh.tmp", 100, 1, true⟩ (by decide) (by simp) rfl (by decide)⟩

/-! ## Stability of the memory sort (claim C8) -/

/-- Boolean test for "this process has effective sort key `k`". -/
def keyIs (k : Nat) (p : Proc) : Bool := keyOf p == k

/-- Inserting into the descending order keeps the relative position of
equal-key elements: the inserted element passes only strictly larger keys
before settling, so restricted to any one key value the insertion prepends
(its own key) or leaves the filtered list unchanged. -/
theorem filter_keyIs_orderedInsert (k : Nat) (a : Proc) (l : List Proc) :
    (List.orderedInsert memGE a l).filter (keyIs k) =
      if keyIs k a then a :: l.filter (keyIs k)
      else l.filter (keyIs k) := by
  induction l with
  | nil =>
    simp only [List.orderedInsert, List.filter_cons, List.filter_nil]
  | cons b l ih =>
    have hins : List.orderedInsert memGE a (b :: l) =
        if memGE a b then a :: b :: l
        else b :: List.orderedInsert memGE a l := rfl
    by_cases hr : memGE a b
    · rw [hins, if_pos hr, List.filter_cons]
    · rw [hins, if_neg hr, List.filter_cons, ih]
      have hr' : ¬ (keyOf b ≤ keyOf a) := hr
      have hlt : keyOf a < keyOf b := not_le.mp hr'
      by_cases hak : keyIs k a = true
      · have hak' : keyOf a = k := by simpa [keyIs] using hak
        have hbk : keyIs k b = false := by
          simp only [keyIs, beq_eq_false_iff_ne, ne_eq]
          omega
        simp [hak, hbk, List.filter_cons]
      · simp [hak, List.filter_cons]

/-- Stability of the `top_processes` sort in helpdesk.py: restricted to
the entries of any one memory key, the sorted list is the provider list. -/
theorem filter_keyIs_sortProcsByMem (l : List Proc) (k : Nat) :
    (sortProcsByMem l).filter (keyIs k) = l.filter (keyIs k) := by
  induction l with
  | nil => rfl
  | cons a l ih =>
    show (List.orderedInsert memGE a
        (List.insertionSort memGE l)).filter (keyIs k) = _
    rw [filter_keyIs_orderedInsert]
    unfold sortProcsByMem at ih
    rw [ih, List.filter_cons]

/-- Claim C8 as stated is false on the code: the top-3 sort of
`collect_basic_report` in helpdesk_logging.py sorts whole
`(mem_rss, pid, name)` tuples with `procs.sort(reverse=True)`, so two
processes with equal memory (here both 0) come out ordered by descending
pid — the provider order `[pid 1, pid 2]` becomes `[pid 2, pid 1]`. -/
theorem C8_counterexample :
    ¬ ((logTop3 [⟨0, 1, "proc-a"⟩, ⟨0, 2, "proc-b"⟩]).filter
          (fun p => p.mem == 0) =
        ([⟨0, 1, "proc-a"⟩, ⟨0, 2, "proc-b"⟩] : List LogProc).filter
          (fun p => p.mem == 0)) := by decide

/-- Claim C8 amended: in helpdesk.py the single memory sort (used for both
the snapshot top-N and, via truncation, the top-3 selection) is stable —
entries with equal `memory_rss` keep their provider order; but the
logging variant (`collect_basic_report` in helpdesk_logging.py) sorts full
`(mem_rss, pid, name)` tuples, so its memory ties are ordered by
descending pid (then name) instead of provider order. -/
theorem C8_stable_ties :
    (∀ (l : List Proc) (k : Nat),
      (sortProcsByMem l).filter (keyIs k) = l.filter (keyIs k)) ∧
    (logTop3 [⟨0, 1, "proc-a"⟩, ⟨0, 2, "proc-b"⟩]).map LogProc.pid =
      [2, 1] :=
  ⟨filter_keyIs_sortProcsByMem, by decide⟩

/-! ## Top-3 kill-suggestion payloads (claim C6) -/

/-- Specification-side characterisation (the claim's words): `top3` is the
list of the top 3 processes by effective memory key, in strictly
descending key order: it has exactly 3 elements drawn (as a
sub-permutation) from `procs`, its keys strictly descend, and every
process of `procs` outside it has a strictly smaller key than each of its
members. -/
def IsTop3Desc (procs top3 : List Proc) : Prop :=
  top3.length = 3 ∧ top3.Subperm procs ∧
  top3.Chain' (fun a b => keyOf b < keyOf a) ∧
  ∀ x ∈ procs, x ∉ top3 → ∀ y ∈ top3, keyOf x < keyOf y

/-- When the memory threshold fires, the kill payloads of
`suggest_actions` are exactly the pids of the first three report
processes. -/
theorem killPayloads_suggest (r : Report) (pct : Rat)
    (hm : r.memory_percent = some pct) (h80 : 80 < pct) :
    killPayloads (suggest_actions r) =
      (r.top_processes.take 3).map Proc.pid := by
  unfold killPayloads suggest_actions
  simp only [hm, if_pos h80]
  have hmem : (List.filter
      (fun s => decide (s.code = ActionCode.kill_process))
      ((r.top_processes.take 3).map mkKillSuggestion)) =
      (r.top_processes.take 3).map mkKillSuggestion := by
    rw [List.filter_eq_self]
    intro s hs
    rcases List.mem_map.mp hs with ⟨p, -, rfl⟩
    simp [mkKillSuggestion]
  have hdisk : (List.filter
      (fun s : Suggestion => decide (s.code = ActionCode.kill_process))
      (if (r.disks.any fun d =>
          match d.percent with
          | some pc => decide (90 < pc)
          | none => false) = true then
        ([⟨ActionCode.clean_temp,
          "Clean user temporary files older than X days", none⟩] :
          List Suggestion)
      else [])) = [] := by
    split <;> rfl
  have hone : (List.filter
      (fun s : Suggestion => decide (s.code = ActionCode.kill_process))
      (if (r.top_processes.any fun p =>
          pyStartsWith (pyLower (p.name.getD "")) "onedrive") = true then
        ([⟨ActionCode.stop_onedrive, "Stop OneDrive process (pause syncing)",
          none⟩] : List Suggestion)
      else [])) = [] := by
    split <;> rfl
  rw [List.filter_append, List.filter_append, hmem, hdisk, hone,
    List.append_nil, List.append_nil, List.map_map]
  rfl

/-- Claim C6: for a snapshot whose memory usage exceeds 80% and whose raw
process list has at least 3 entries with pairwise distinct effective
memory keys, the run (with a top-N of at least 3, default 5) produces
exactly the 3 kill suggestions whose payloads are the pids of the top 3
processes by memory, descending. -/
theorem C6_top3_kill_payloads (data : ProviderData) (n : Nat) (pct : Rat)
    (hn : 3 ≤ n) (hpct : data.memory_percent = some pct) (h80 : 80 < pct)
    (hlen : 3 ≤ data.procs.length)
    (hdist : data.procs.Pairwise (fun a b => keyOf a ≠ keyOf b)) :
    ∃ top3 : List Proc, IsTop3Desc data.procs top3 ∧
      killPayloads (suggest_actions (run_checks true n data)) =
        top3.map Proc.pid := by
  have perm : List.Perm (sortProcsByMem data.procs) data.procs :=
    List.perm_insertionSort memGE data.procs
  have hsort : List.Sorted memGE (sortProcsByMem data.procs) :=
    List.sorted_insertionSort memGE data.procs
  have hdist' : (sortProcsByMem data.procs).Pairwise
      (fun a b => keyOf a ≠ keyOf b) :=
    (List.Perm.pairwise_iff (fun {_ _} h => Ne.symm h) perm).mpr hdist
  have hstrict : (sortProcsByMem data.procs).Pairwise
      (fun a b => keyOf b < keyOf a) := by
    refine (hsort.and hdist').imp ?_
    rintro a b ⟨hle, hne⟩
    exact lt_of_le_of_ne hle (fun h => hne h.symm)
  have hlen' : 3 ≤ (sortProcsByMem data.procs).length := by
    rw [perm.length_eq]; exact hlen
  refine ⟨(sortProcsByMem data.procs).take 3, ⟨?_, ?_, ?_, ?_⟩, ?_⟩
  · rw [List.length_take]
    exact Nat.min_eq_left hlen'
  · exact ((List.take_sublist 3 _).subperm).trans perm.subperm
  · exact (List.Pairwise.sublist (List.take_sublist 3 _) hstrict).chain'
  · intro x hx hnx y hy
    have hxs : x ∈ sortProcsByMem data.procs := perm.mem_iff.mpr hx
    have hsplit : (sortProcsByMem data.procs).take 3 ++
        (sortProcsByMem data.procs).drop 3 = sortProcsByMem data.procs :=
      List.take_append_drop 3 _
    have hps : ((sortProcsByMem data.procs).take 3 ++
        (sortProcsByMem data.procs).drop 3).Pairwise
        (fun a b => keyOf b < keyOf a) := by
      rw [hsplit]; exact hstrict
    have hxd : x ∈ (sortProcsByMem data.procs).drop 3 := by
      rcases List.mem_append.mp (by rw [hsplit]; exact hxs) with h | h
      · exact absurd h hnx
      · exact h
    exact (List.pairwise_append.mp hps).2.2 y hy x hxd
  · rw [killPayloads_suggest _ pct hpct h80]
    show ((top_processes n data.procs).take 3).map Proc.pid = _
    unfold top_processes
    rw [List.take_take, Nat.min_eq_left hn]

/-- Witness for claim C6 at the spec scenario: memory 95%, three processes
with distinct memory, pids 10, 11, 12 by descending memory. -/
theorem C6_top3_kill_payloads_witness :
    ∃ top3 : List Proc,
      IsTop3Desc
        [⟨some 10, some "chrome", none, some 500000000, none⟩,
         ⟨some 11, some "explorer", none, some 300000000, none⟩,
         ⟨some 12, some "notepad", none, some 100000000, none⟩] top3 ∧
      killPayloads (suggest_actions (run_checks true 5
        ⟨some 95, none, [],
          [⟨some 10, some "chrome", none, some 500000000, none⟩,
           ⟨some 11, some "explorer", none, some 300000000, none⟩,
           ⟨some 12, some "notepad", none, some 100000000, none⟩],
          []⟩)) = top3.map Proc.pid :=
  C6_top3_kill_payloads
    ⟨some 95, none, [],
      [⟨some 10, some "chrome", none, some 500000000, none⟩,
       ⟨some 11, some "explorer", none, some 300000000, none⟩,
       ⟨some 12, some "notepad", none, some 100000000, none⟩],
      []⟩ 5 95 (by decide) rfl (by decide) (by decide) (by decide)

end Helpdesk
